import Mathlib

/-!
Shallow embedding of src/dec/microsoft/exe_archive_decoder.cc
(arc_unpacker, PE resource archive decoder) and proofs about it.

Byte streams are lists of octets (each byte is taken mod 256 on read);
machine integers are naturals with explicit mod 2^32 where the C++ u32
arithmetic wraps.  Fallible stream operations live in a small
state-threading monad over Except.
-/

/-- Stream state: the immutable byte data plus a cursor position. -/
structure Strm where
  data : List Nat
  pos : Nat
deriving DecidableEq, Repr

/-- Errors thrown by decoding: end-of-stream (io exceptions on reads and
seeks past the end) and corrupt-data errors with a message. -/
inductive Err where
  | eof : Err
  | corrupt : String → Err
deriving DecidableEq, Repr

/-- Decoder monad: state-passing over the stream with Except failure. -/
def Dec (α : Type) : Type := Strm → Except Err (α × Strm)

/-- Pure return of the decoder monad. -/
def decPure {α : Type} (a : α) : Dec α := fun s => .ok (a, s)

/-- Sequencing of the decoder monad: C++ exceptions short-circuit. -/
def decBind {α β : Type} (m : Dec α) (f : α → Dec β) : Dec β := fun s =>
  match m s with
  | .ok (a, s1) => f a s1
  | .error e => .error e

instance : Monad Dec where
  pure := decPure
  bind := decBind

deriving instance DecidableEq for Except

/-- io::IStream::read(n): reads n bytes, throws when fewer remain. -/
def readBytes (n : Nat) : Dec (List Nat) := fun s =>
  if s.pos + n ≤ s.data.length then
    .ok (((s.data.drop s.pos).take n).map (fun b => b % 256), ⟨s.data, s.pos + n⟩)
  else
    .error .eof

/-- Little-endian value of a byte list. -/
def leVal : List Nat → Nat
  | [] => 0
  | b :: rest => b + 256 * leVal rest

/-- io::IStream::read with a 1-byte unsigned integer. -/
def readU8 : Dec Nat := do
  let bs ← readBytes 1
  pure (leVal bs)

/-- io::IStream::read_le with u16. -/
def readU16 : Dec Nat := do
  let bs ← readBytes 2
  pure (leVal bs)

/-- io::IStream::read_le with u32. -/
def readU32 : Dec Nat := do
  let bs ← readBytes 4
  pure (leVal bs)

/-- io::IStream::read_le with u64. -/
def readU64 : Dec Nat := do
  let bs ← readBytes 8
  pure (leVal bs)

/-- io::IStream::seek(offset): absolute seek, throws past the end. -/
def seekD (off : Nat) : Dec Unit := fun s =>
  if off ≤ s.data.length then .ok ((), ⟨s.data, off⟩) else .error .eof

/-- io::IStream::skip(n): seek(tell() + n). -/
def skipD (n : Nat) : Dec Unit := fun s =>
  if s.pos + n ≤ s.data.length then .ok ((), ⟨s.data, s.pos + n⟩) else .error .eof

/-- DosHeader value struct (exe_archive_decoder.cc lines 18-39). -/
structure DosHeader where
  magic : List Nat
  e_cblp : Nat
  e_cp : Nat
  e_crlc : Nat
  e_cparhdr : Nat
  e_minalloc : Nat
  e_maxalloc : Nat
  e_ss : Nat
  e_sp : Nat
  e_csum : Nat
  e_ip : Nat
  e_cs : Nat
  e_lfarlc : Nat
  e_ovno : Nat
  e_oemid : Nat
  e_oeminfo : Nat
  e_lfanew : Nat
deriving DecidableEq, Repr

/-- DosHeader::DosHeader: sequential decode of the 64-byte DOS header. -/
def DosHeader.decode : Dec DosHeader := do
  let magic ← readBytes 2
  let e_cblp ← readU16
  let e_cp ← readU16
  let e_crlc ← readU16
  let e_cparhdr ← readU16
  let e_minalloc ← readU16
  let e_maxalloc ← readU16
  let e_ss ← readU16
  let e_sp ← readU16
  let e_csum ← readU16
  let e_ip ← readU16
  let e_cs ← readU16
  let e_lfarlc ← readU16
  let e_ovno ← readU16
  skipD (2 * 4)
  let e_oemid ← readU16
  let e_oeminfo ← readU16
  skipD (2 * 10)
  let e_lfanew ← readU32
  pure { magic, e_cblp, e_cp, e_crlc, e_cparhdr, e_minalloc, e_maxalloc,
         e_ss, e_sp, e_csum, e_ip, e_cs, e_lfarlc, e_ovno, e_oemid,
         e_oeminfo, e_lfanew }

/-- ImageOptionalHeader value struct (lines 41-75). -/
structure ImageOptionalHeader where
  magic : Nat
  major_linker_version : Nat
  minor_linker_version : Nat
  size_of_code : Nat
  size_of_initialized_data : Nat
  size_of_uninitialized_data : Nat
  address_of_entry_point : Nat
  base_of_code : Nat
  base_of_data : Nat
  image_base : Nat
  section_alignment : Nat
  file_alignment : Nat
  major_operating_system_version : Nat
  minor_operating_system_version : Nat
  major_image_version : Nat
  minor_image_version : Nat
  major_subsystem_version : Nat
  minor_subsystem_version : Nat
  win32_version_value : Nat
  size_of_image : Nat
  size_of_headers : Nat
  checksum : Nat
  subsystem : Nat
  dll_characteristics : Nat
  size_of_stack_reserve : Nat
  size_of_stack_commit : Nat
  size_of_heap_reserve : Nat
  size_of_heap_commit : Nat
  loader_flags : Nat
  number_of_rva_and_sizes : Nat
deriving DecidableEq, Repr

/-- ImageOptionalHeader::ImageOptionalHeader (lines 234-277): magic 0x20B
selects 8-byte stack/heap fields, every other magic the 4-byte layout. -/
def ImageOptionalHeader.decode : Dec ImageOptionalHeader := do
  let magic ← readU16
  let major_linker_version ← readU8
  let minor_linker_version ← readU8
  let size_of_code ← readU32
  let size_of_initialized_data ← readU32
  let size_of_uninitialized_data ← readU32
  let address_of_entry_point ← readU32
  let base_of_code ← readU32
  let base_of_data ← readU32
  let image_base ← readU32
  let section_alignment ← readU32
  let file_alignment ← readU32
  let major_operating_system_version ← readU16
  let minor_operating_system_version ← readU16
  let major_image_version ← readU16
  let minor_image_version ← readU16
  let major_subsystem_version ← readU16
  let minor_subsystem_version ← readU16
  let win32_version_value ← readU32
  let size_of_image ← readU32
  let size_of_headers ← readU32
  let checksum ← readU32
  let subsystem ← readU16
  let dll_characteristics ← readU16
  let pe64 := magic == 0x20B
  let size_of_stack_reserve ← if pe64 then readU64 else readU32
  let size_of_stack_commit ← if pe64 then readU64 else readU32
  let size_of_heap_reserve ← if pe64 then readU64 else readU32
  let size_of_heap_commit ← if pe64 then readU64 else readU32
  let loader_flags ← readU32
  let number_of_rva_and_sizes ← readU32
  pure { magic, major_linker_version, minor_linker_version, size_of_code,
         size_of_initialized_data, size_of_uninitialized_data,
         address_of_entry_point, base_of_code, base_of_data, image_base,
         section_alignment, file_alignment, major_operating_system_version,
         minor_operating_system_version, major_image_version,
         minor_image_version, major_subsystem_version,
         minor_subsystem_version, win32_version_value, size_of_image,
         size_of_headers, checksum, subsystem, dll_characteristics,
         size_of_stack_reserve, size_of_stack_commit, size_of_heap_reserve,
         size_of_heap_commit, loader_flags, number_of_rva_and_sizes }

/-- ImageFileHeader value struct (lines 77-88). -/
structure ImageFileHeader where
  machine : Nat
  number_of_sections : Nat
  timestamp : Nat
  pointer_to_symbol_table : Nat
  number_of_symbols : Nat
  size_of_optional_header : Nat
  characteristics : Nat
deriving DecidableEq, Repr

/-- ImageFileHeader::ImageFileHeader (lines 279-288). -/
def ImageFileHeader.decode : Dec ImageFileHeader := do
  let machine ← readU16
  let number_of_sections ← readU16
  let timestamp ← readU32
  let pointer_to_symbol_table ← readU32
  let number_of_symbols ← readU32
  let size_of_optional_header ← readU16
  let characteristics ← readU16
  pure { machine, number_of_sections, timestamp, pointer_to_symbol_table,
         number_of_symbols, size_of_optional_header, characteristics }

/-- ImageNtHeader value struct (lines 90-97). -/
structure ImageNtHeader where
  signature : Nat
  file_header : ImageFileHeader
  optional_header : ImageOptionalHeader
deriving DecidableEq, Repr

/-- ImageNtHeader::ImageNtHeader (lines 290-295). -/
def ImageNtHeader.decode : Dec ImageNtHeader := do
  let signature ← readU32
  let file_header ← ImageFileHeader.decode
  let optional_header ← ImageOptionalHeader.decode
  pure { signature, file_header, optional_header }

/-- ImageDataDir value struct (lines 99-105). -/
structure ImageDataDir where
  virtual_address : Nat
  size : Nat
deriving DecidableEq, Repr

/-- ImageDataDir::ImageDataDir (lines 297-301). -/
def ImageDataDir.decode : Dec ImageDataDir := do
  let virtual_address ← readU32
  let size ← readU32
  pure { virtual_address, size }

/-- ImageSectionHeader value struct (lines 107-122). -/
structure ImageSectionHeader where
  name : List Nat
  virtual_size : Nat
  physical_address : Nat
  virtual_address : Nat
  size_of_raw_data : Nat
  pointer_to_raw_data : Nat
  pointer_to_relocations : Nat
  pointer_to_line_numbers : Nat
  number_of_relocations : Nat
  number_of_line_numbers : Nat
  characteristics : Nat
deriving DecidableEq, Repr

/-- ImageSectionHeader::ImageSectionHeader (lines 303-315). -/
def ImageSectionHeader.decode : Dec ImageSectionHeader := do
  let name ← readBytes 8
  let virtual_size ← readU32
  let virtual_address ← readU32
  let size_of_raw_data ← readU32
  let pointer_to_raw_data ← readU32
  let pointer_to_relocations ← readU32
  let pointer_to_line_numbers ← readU32
  let number_of_relocations ← readU16
  let number_of_line_numbers ← readU16
  let characteristics ← readU32
  pure { name, virtual_size, physical_address := 0, virtual_address,
         size_of_raw_data, pointer_to_raw_data, pointer_to_relocations,
         pointer_to_line_numbers, number_of_relocations,
         number_of_line_numbers, characteristics }

/-- ImageResourceDir value struct (lines 124-134). -/
structure ImageResourceDir where
  characteristics : Nat
  timestamp : Nat
  major_version : Nat
  minor_version : Nat
  number_of_named_entries : Nat
  number_of_id_entries : Nat
deriving DecidableEq, Repr

/-- ImageResourceDir::ImageResourceDir (lines 317-325). -/
def ImageResourceDir.decode : Dec ImageResourceDir := do
  let characteristics ← readU32
  let timestamp ← readU32
  let major_version ← readU16
  let minor_version ← readU16
  let number_of_named_entries ← readU16
  let number_of_id_entries ← readU16
  pure { characteristics, timestamp, major_version, minor_version,
         number_of_named_entries, number_of_id_entries }

/-- ImageResourceDirEntry value struct (lines 136-146). -/
structure ImageResourceDirEntry where
  offset_to_data : Nat
  name_is_string : Bool
  name_offset : Nat
  name : Nat
  id : Nat
  data_is_dir : Nat
deriving DecidableEq, Repr

/-- ImageResourceDirEntry::ImageResourceDirEntry (lines 327-337): two u32
words; the high bit of the name word flags a string name, the high bit of
the offset word flags a subdirectory; low 31 bits are the offsets. -/
def ImageResourceDirEntry.decode : Dec ImageResourceDirEntry := do
  let name ← readU32
  let rawOffset ← readU32
  pure { offset_to_data := rawOffset % 2 ^ 31,
         name_is_string := decide (0 < name / 2 ^ 31),
         name_offset := name % 2 ^ 31,
         name := name,
         id := name,
         data_is_dir := rawOffset / 2 ^ 31 }

/-- ImageResourceDataEntry value struct (lines 148-155). -/
structure ImageResourceDataEntry where
  offset_to_data : Nat
  size : Nat
  code_page : Nat
deriving DecidableEq, Repr

/-- ImageResourceDataEntry::ImageResourceDataEntry (lines 339-345). -/
def ImageResourceDataEntry.decode : Dec ImageResourceDataEntry := do
  let offset_to_data ← readU32
  let size ← readU32
  let code_page ← readU32
  skipD 4
  pure { offset_to_data, size, code_page }

/-- RvaHelper (lines 157-175): alignment values plus the section table. -/
structure RvaHelper where
  file_alignment : Nat
  section_alignment : Nat
  sections : List ImageSectionHeader
deriving DecidableEq, Repr

/-- RvaHelper::adjust_file_alignment (lines 378-381). -/
def RvaHelper.adjust_file_alignment (h : RvaHelper) (offset : Nat) : Nat :=
  if h.file_alignment < 0x200 then offset else (offset / 0x200) * 0x200

/-- RvaHelper::adjust_section_alignment (lines 383-391). -/
def RvaHelper.adjust_section_alignment (h : RvaHelper) (offset : Nat) : Nat :=
  let fixed_alignment :=
    if h.section_alignment < 0x1000 then h.file_alignment else h.section_alignment
  if fixed_alignment ≠ 0 ∧ offset % fixed_alignment ≠ 0 then
    fixed_alignment * (offset / fixed_alignment)
  else
    offset

/-- Loop body of RvaHelper::section_for_rva (lines 365-376): first section
whose half-open virtual interval contains the rva; the bound is computed
in wrapping u32 arithmetic as in the C++ source. -/
def sectionSearch (rva : Nat) : List ImageSectionHeader → Option ImageSectionHeader
  | [] => none
  | sec :: rest =>
    if sec.virtual_address ≤ rva ∧
        rva < (sec.virtual_address + sec.virtual_size) % 2 ^ 32 then
      some sec
    else
      sectionSearch rva rest

/-- RvaHelper::section_for_rva (lines 365-376). -/
def RvaHelper.section_for_rva (h : RvaHelper) (rva : Nat) :
    Except Err ImageSectionHeader :=
  match sectionSearch rva h.sections with
  | some sec => .ok sec
  | none => .error (.corrupt "Section not found")

/-- RvaHelper::rva_to_offset (lines 357-363).  The C++ expression
rva + adjust_file_alignment(p) - adjust_section_alignment(v) is u32
wrapping arithmetic; since both adjusted values are below 2^32 it equals
(rva + af + (2^32 - as)) mod 2^32. -/
def RvaHelper.rva_to_offset (h : RvaHelper) (rva : Nat) : Except Err Nat :=
  match h.section_for_rva rva with
  | .ok sec =>
      .ok ((rva + h.adjust_file_alignment sec.pointer_to_raw_data
            + (2 ^ 32 - h.adjust_section_alignment sec.virtual_address)) % 2 ^ 32)
  | .error e => .error e

/-- Path separator (line 209): the full-width solidus, kept to flatten
the unpacked hierarchy. -/
def path_sep : String := "／"

/-- Archive entry produced by the crawler (ArchiveEntryImpl, lines 12-16,
together with the path carried by dec::ArchiveEntry). -/
structure AEntry where
  path : String
  offset : Nat
  size : Nat
deriving DecidableEq, Repr

/-- Mutable state threaded through the crawler: the shared stream cursor,
the ArchiveMeta entry list, and the logger output (each logged diagnostic
is the attempted absolute offset plus the underlying error). -/
structure CState where
  pos : Nat
  entries : List AEntry
  log : List (Nat × Err)
deriving DecidableEq, Repr

/-- Outcome of a crawler computation: normal return, a thrown exception
(with the state at the throw, since entries already pushed and lines
already logged persist), or divergence (the fuel bound was hit, i.e. the
C++ recursion would still be expanding). -/
inductive COut (α : Type) where
  | ok : α → CState → COut α
  | err : Err → CState → COut α
  | diverge : COut α
deriving DecidableEq, Repr

/-- ResourceCrawlerArgs (lines 177-191): the file bytes stand for the
stream, base_offset and the rva helper as in the source; logger and meta
live in CState instead. -/
structure CrawlArgs where
  data : List Nat
  base_offset : Nat
  rva_helper : RvaHelper
deriving DecidableEq, Repr

/-- Runs a header decode against the crawler state stream. -/
def liftDec {α : Type} (d : Dec α) (a : CrawlArgs) (s : CState) : COut α :=
  match d ⟨a.data, s.pos⟩ with
  | .ok (x, st) => .ok x { s with pos := st.pos }
  | .error e => .err e s

/-- Groups a byte list into little-endian 16-bit code units (a trailing
odd byte is dropped; the source always reads an even count). -/
def utf16Units : List Nat → List Nat
  | b0 :: b1 :: rest => (b0 + 256 * b1) :: utf16Units rest
  | _ => []

/-- Modelled from the spec: the transcoding step of algo::utf16_to_utf8
(algo/locale, not under src/), combining surrogate pairs into code points
and mapping unpaired surrogates to U+FFFD. -/
def utf16Codepoints : List Nat → List Nat
  | [] => []
  | [u] => if 0xD800 ≤ u ∧ u < 0xDC00 then [0xFFFD] else [u]
  | u :: v :: rest =>
    if 0xD800 ≤ u ∧ u < 0xDC00 then
      if 0xDC00 ≤ v ∧ v < 0xE000 then
        (0x10000 + (u - 0xD800) * 0x400 + (v - 0xDC00)) :: utf16Codepoints rest
      else
        0xFFFD :: utf16Codepoints (v :: rest)
    else
      u :: utf16Codepoints (v :: rest)

/-- Modelled from the spec: algo::utf16_to_utf8 (algo/locale, not under
src/), decoding UTF-16LE bytes into text. -/
def utf16_to_utf8 (bytes : List Nat) : String :=
  String.mk ((utf16Codepoints (utf16Units bytes)).map Char.ofNat)

/-- Renders a u32 with the %d conversion of algo::format (printf reads
the 32-bit value as signed). -/
def formatSigned (id : Nat) : String :=
  if id < 2 ^ 31 then toString id else "-" ++ toString (2 ^ 32 - id)

/-- ResourceCrawler::read_entry_name (lines 463-497): a string name is a
16-bit count followed by that many UTF-16 code units at
base + name_offset; a numeric id goes through the resource-type table,
defaulting to the decimal id. -/
def readEntryName (a : CrawlArgs) (entry : ImageResourceDirEntry)
    (s : CState) : COut String :=
  if entry.name_is_string then
    match liftDec (do
        seekD (a.base_offset + entry.name_offset)
        let max_size ← readU16
        readBytes (max_size * 2)) a s with
    | .ok bytes s1 => .ok (utf16_to_utf8 bytes) s1
    | .err e s1 => .err e s1
    | .diverge => .diverge
  else
    .ok (match entry.id with
      | 1 => "CURSOR"
      | 2 => "BITMAP"
      | 3 => "ICON"
      | 4 => "MENU"
      | 5 => "DIALOG"
      | 6 => "STRING"
      | 7 => "FONT_DIRECTORY"
      | 8 => "FONT"
      | 9 => "ACCELERATOR"
      | 10 => "RC_DATA"
      | 11 => "MESSAGE_TABLE"
      | 16 => "VERSION"
      | 17 => "DLG_INCLUDE"
      | 19 => "PLUG_AND_PLAY"
      | 20 => "VXD"
      | 21 => "ANIMATED_CURSOR"
      | 22 => "ANIMATED_ICON"
      | 23 => "HTML"
      | 24 => "MANIFEST"
      | _ => formatSigned entry.id) s

/-- ResourceCrawler::process_entry (lines 450-461): decode the data entry
at base + offset, translate its RVA, append the archive entry. -/
def processEntry (a : CrawlArgs) (offset : Nat) (path : String)
    (s : CState) : COut Unit :=
  match liftDec (do
      seekD (a.base_offset + offset)
      ImageResourceDataEntry.decode) a s with
  | .err e s1 => .err e s1
  | .diverge => .diverge
  | .ok resource_entry s1 =>
    match a.rva_helper.rva_to_offset resource_entry.offset_to_data with
    | .error e => .err e s1
    | .ok off =>
        .ok () { s1 with
                 entries := s1.entries ++ [⟨path, off, resource_entry.size⟩] }

/-- Body of the peek lambda (lines 428-438): resolve the entry name,
extend the path, descend into a subdirectory or process a leaf.  The
child parameter is the recursive process_dir call. -/
def innerStep (child : Nat → String → CState → COut Unit) (a : CrawlArgs)
    (entry : ImageResourceDirEntry) (path : String) (s : CState) : COut Unit :=
  match readEntryName a entry s with
  | .err e s1 => .err e s1
  | .diverge => .diverge
  | .ok name s1 =>
    let entry_path := if path ≠ "" then path ++ path_sep ++ name else name
    if entry.data_is_dir ≠ 0 then
      child entry.offset_to_data entry_path s1
    else
      processEntry a entry.offset_to_data entry_path s1

/-- One guarded entry step (lines 426-446).  Modelled from the spec:
io::IStream::peek (the stream abstraction is not under src/) saves the
cursor, runs the body, and restores the cursor whether the body succeeds
or throws; the surrounding catch block then logs the attempted absolute
offset together with the cause and swallows the exception.  Divergence
is a C++ stack overflow, which no catch block stops. -/
def entryStep (inner : CState → COut Unit) (logAddr : Nat) (s : CState) :
    COut Unit :=
  match inner s with
  | .ok _ s1 => .ok () { s1 with pos := s.pos }
  | .err e s1 => .ok () { s1 with pos := s.pos, log := s1.log ++ [(logAddr, e)] }
  | .diverge => .diverge

/-- Entry loop of ResourceCrawler::process_dir (lines 422-447): the
8-byte entry record is read outside the try block, so its failure
propagates; everything after it runs inside entryStep. -/
def processEntries (child : Nat → String → CState → COut Unit)
    (a : CrawlArgs) : Nat → String → CState → COut Unit
  | 0, _, s => .ok () s
  | n + 1, path, s =>
    match liftDec ImageResourceDirEntry.decode a s with
    | .err e s1 => .err e s1
    | .diverge => .diverge
    | .ok entry s1 =>
      match entryStep (innerStep child a entry path)
          (a.base_offset + entry.offset_to_data) s1 with
      | .ok _ s2 => processEntries child a n path s2
      | .err e s2 => .err e s2
      | .diverge => .diverge

/-- ResourceCrawler::process_dir (lines 417-448), with an explicit fuel
parameter bounding the recursion depth: the C++ recursion carries no
such bound, so the diverge outcome at fuel 0 marks a recursion the
source would still be expanding. -/
def processDir (a : CrawlArgs) : Nat → Nat → String → CState → COut Unit
  | 0, _, _, _ => .diverge
  | fuel + 1, offset, path, s =>
    match liftDec (do
        seekD (a.base_offset + offset)
        ImageResourceDir.decode) a s with
    | .err e s1 => .err e s1
    | .diverge => .diverge
    | .ok dir s1 =>
      processEntries (processDir a fuel) a
        (dir.number_of_named_entries + dir.number_of_id_entries) path s1

/-- ResourceCrawler::crawl (lines 407-411): start at directory offset 0
with an empty path. -/
def crawl (a : CrawlArgs) (fuel : Nat) (s : CState) : COut Unit :=
  processDir a fuel 0 "" s

/-- Termination predicate for the crawl on a given input: some fuel
suffices, i.e. the C++ recursion bottoms out. -/
def crawlTerminates (a : CrawlArgs) (s : CState) : Prop :=
  ∃ fuel, crawl a fuel s ≠ .diverge

/-- ExeArchiveDecoder::is_recognized_impl (lines 499-503): decode the
DOS header from the start and compare its magic with MZ. -/
def is_recognized (file : List Nat) : Except Err Bool :=
  match DosHeader.decode ⟨file, 0⟩ with
  | .ok (dos, _) => .ok (dos.magic == [77, 90])
  | .error e => .error e

/-- Decodes n consecutive records (the algo::range loops of
read_meta_impl, lines 515-520). -/
def decodeList {α : Type} (d : Dec α) : Nat → Dec (List α)
  | 0 => pure []
  | n + 1 => do
    let x ← d
    let xs ← decodeList d n
    pure (x :: xs)

/-- Header phase of ExeArchiveDecoder::read_meta_impl (lines 505-525):
DOS header, seek to e_lfanew, NT header, data-directory table, section
table. -/
def decodePrelude (file : List Nat) :
    Except Err (ImageNtHeader × List ImageDataDir × List ImageSectionHeader × Strm) :=
  match (do
      let dos ← DosHeader.decode
      seekD dos.e_lfanew
      let nt ← ImageNtHeader.decode
      let dirs ← decodeList ImageDataDir.decode
        nt.optional_header.number_of_rva_and_sizes
      let secs ← decodeList ImageSectionHeader.decode
        nt.file_header.number_of_sections
      pure (nt, dirs, secs) : Dec _) ⟨file, 0⟩ with
  | .ok ((nt, dirs, secs), st) => .ok (nt, dirs, secs, st)
  | .error e => .error e

/-- Overall outcome of read_meta_impl: the entry list with the log, a
propagated exception, the out-of-bounds vector access (see ub), or
divergence of the crawl. -/
inductive MetaOut where
  | ok : List AEntry → List (Nat × Err) → MetaOut
  | err : Err → MetaOut
  | ub : MetaOut
  | diverge : MetaOut
deriving DecidableEq, Repr

/-- ExeArchiveDecoder::read_meta_impl (lines 505-533).  The unchecked
C++ vector access data_dirs[2] (line 527) is modelled with List.get?:
when the table is shorter than 3 the source reads out of bounds, which
the embedding reports as the distinguished ub outcome. -/
def read_meta (fuel : Nat) (file : List Nat) : MetaOut :=
  match decodePrelude file with
  | .error e => .err e
  | .ok (nt, dirs, secs, st) =>
    let rva_helper : RvaHelper :=
      ⟨nt.optional_header.file_alignment,
       nt.optional_header.section_alignment, secs⟩
    match dirs.get? 2 with
    | none => .ub
    | some resource_dir =>
      match rva_helper.rva_to_offset resource_dir.virtual_address with
      | .error e => .err e
      | .ok base_offset =>
        match crawl ⟨file, base_offset, rva_helper⟩ fuel ⟨st.pos, [], []⟩ with
        | .ok _ s => .ok s.entries s.log
        | .err e _ => .err e
        | .diverge => .diverge

/-- Little-endian encoding helpers used to build concrete test inputs. -/
def enc16 (v : Nat) : List Nat := [v % 256, v / 256 % 256]

/-- Little-endian 32-bit encoder for concrete test inputs. -/
def enc32 (v : Nat) : List Nat :=
  [v % 256, v / 256 % 256, v / 65536 % 256, v / 16777216 % 256]

/-- One declared section for the concrete crawls: rva 0x2000 maps to raw
offset 0x400. -/
def secA : ImageSectionHeader :=
  { name := [], virtual_size := 0x100, physical_address := 0,
    virtual_address := 0x2000, size_of_raw_data := 0x100,
    pointer_to_raw_data := 0x400, pointer_to_relocations := 0,
    pointer_to_line_numbers := 0, number_of_relocations := 0,
    number_of_line_numbers := 0, characteristics := 0 }

/-- Synthetic resource section: named directory A containing numeric id
3 (ICON) containing named leaf X whose data entry points at rva 0x2000,
size 5. -/
def resTreeFile : List Nat :=
  enc32 0 ++ enc32 0 ++ enc16 0 ++ enc16 0 ++ enc16 1 ++ enc16 0 ++
  enc32 (2 ^ 31 + 88) ++ enc32 (2 ^ 31 + 24) ++
  enc32 0 ++ enc32 0 ++ enc16 0 ++ enc16 0 ++ enc16 0 ++ enc16 1 ++
  enc32 3 ++ enc32 (2 ^ 31 + 48) ++
  enc32 0 ++ enc32 0 ++ enc16 0 ++ enc16 0 ++ enc16 1 ++ enc16 0 ++
  enc32 (2 ^ 31 + 92) ++ enc32 72 ++
  enc32 0x2000 ++ enc32 5 ++ enc32 0 ++ enc32 0 ++
  enc16 1 ++ enc16 0x41 ++
  enc16 1 ++ enc16 0x58

/-- Crawler arguments for resTreeFile. -/
def resTreeArgs : CrawlArgs := ⟨resTreeFile, 0, ⟨0x200, 0x1000, [secA]⟩⟩

/-- Synthetic resource section whose top directory declares two entries:
the first is a valid leaf (its data entry overlaps the header bytes, so
the rva field reads 0x2000 and the size field reads 5), but the file
ends before the second 8-byte entry record. -/
def truncTreeFile : List Nat :=
  enc32 0 ++ enc32 0x2000 ++ enc16 5 ++ enc16 0 ++ enc16 0 ++ enc16 2 ++
  enc32 7 ++ enc32 4 ++
  [0, 0, 0, 0]

/-- Crawler arguments for truncTreeFile. -/
def truncTreeArgs : CrawlArgs := ⟨truncTreeFile, 0, ⟨0x200, 0x1000, [secA]⟩⟩

/-- Synthetic cyclic resource section: the single entry of the top
directory is a subdirectory entry pointing back at offset 0. -/
def cycTreeFile : List Nat :=
  enc32 0 ++ enc32 0 ++ enc16 0 ++ enc16 0 ++ enc16 0 ++ enc16 1 ++
  enc32 3 ++ enc32 (2 ^ 31)

/-- Crawler arguments for cycTreeFile. -/
def cycTreeArgs : CrawlArgs := ⟨cycTreeFile, 0, ⟨0, 0, []⟩⟩

/-- Minimal PE image whose optional header declares zero data
directories and zero sections: 64-byte DOS header with e_lfanew 64,
then signature, file header, and a 32-bit optional header that is zero
except for its magic. -/
def peNoDirsFile : List Nat :=
  [77, 90] ++ List.replicate 58 0 ++ enc32 64 ++
  enc32 0x4550 ++
  enc16 0x14C ++ enc16 0 ++ enc32 0 ++ enc32 0 ++ enc32 0 ++
  enc16 96 ++ enc16 0 ++
  enc16 0x10B ++ List.replicate 94 0

/-- A 64-byte input starting with MZ (the shortest input is_recognized
accepts). -/
def mz64File : List Nat := [77, 90] ++ List.replicate 62 0

/-- A 96-byte optional header whose magic is 0 (neither 0x10B nor 0x20B)
and whose last 24 bytes carry distinctive u32 values, so the decode
result exhibits the 4-byte-wide field layout. -/
def optBadMagicFile : List Nat :=
  enc16 0 ++ List.replicate 70 0 ++
  enc32 0x11 ++ enc32 0x22 ++ enc32 0x33 ++ enc32 0x44 ++
  enc32 0x55 ++ enc32 0x66

/-- The header optBadMagicFile decodes to. -/
def optBadMagicHeader : ImageOptionalHeader :=
  { magic := 0, major_linker_version := 0, minor_linker_version := 0,
    size_of_code := 0, size_of_initialized_data := 0,
    size_of_uninitialized_data := 0, address_of_entry_point := 0,
    base_of_code := 0, base_of_data := 0, image_base := 0,
    section_alignment := 0, file_alignment := 0,
    major_operating_system_version := 0,
    minor_operating_system_version := 0, major_image_version := 0,
    minor_image_version := 0, major_subsystem_version := 0,
    minor_subsystem_version := 0, win32_version_value := 0,
    size_of_image := 0, size_of_headers := 0, checksum := 0,
    subsystem := 0, dll_characteristics := 0,
    size_of_stack_reserve := 0x11, size_of_stack_commit := 0x22,
    size_of_heap_reserve := 0x33, size_of_heap_commit := 0x44,
    loader_flags := 0x55, number_of_rva_and_sizes := 0x66 }

/-- The NT header peNoDirsFile decodes to. -/
def ntNoDirsHeader : ImageNtHeader :=
  { signature := 0x4550,
    file_header :=
      { machine := 0x14C, number_of_sections := 0, timestamp := 0,
        pointer_to_symbol_table := 0, number_of_symbols := 0,
        size_of_optional_header := 96, characteristics := 0 },
    optional_header :=
      { magic := 0x10B, major_linker_version := 0,
        minor_linker_version := 0, size_of_code := 0,
        size_of_initialized_data := 0, size_of_uninitialized_data := 0,
        address_of_entry_point := 0, base_of_code := 0,
        base_of_data := 0, image_base := 0, section_alignment := 0,
        file_alignment := 0, major_operating_system_version := 0,
        minor_operating_system_version := 0, major_image_version := 0,
        minor_image_version := 0, major_subsystem_version := 0,
        minor_subsystem_version := 0, win32_version_value := 0,
        size_of_image := 0, size_of_headers := 0, checksum := 0,
        subsystem := 0, dll_characteristics := 0,
        size_of_stack_reserve := 0, size_of_stack_commit := 0,
        size_of_heap_reserve := 0, size_of_heap_commit := 0,
        loader_flags := 0, number_of_rva_and_sizes := 0 } }

/-- Synthetic resource section with two sibling entries: the first is a
named entry whose name offset (1000) points past end-of-file, the second
a valid numeric leaf whose data entry overlaps the header bytes (rva
field 0x2000, size field 5). -/
def badNameFile : List Nat :=
  enc32 0 ++ enc32 0x2000 ++ enc16 5 ++ enc16 0 ++ enc16 1 ++ enc16 1 ++
  enc32 (2 ^ 31 + 1000) ++ enc32 40 ++
  enc32 7 ++ enc32 4

/-- Crawler arguments for badNameFile. -/
def badNameArgs : CrawlArgs := ⟨badNameFile, 0, ⟨0x200, 0x1000, [secA]⟩⟩

/-- Modelled from the spec: the 32-bit optional-header variant of the
field table (magic 0x10B layout: stack/heap reserve/commit fields are 4
bytes each, all other fields as in the common layout), used to compare
what the source decoder does on a non-0x20B magic against the spec's
32-bit layout. -/
def ImageOptionalHeader.decode32Spec : Dec ImageOptionalHeader := do
  let magic ← readU16
  let major_linker_version ← readU8
  let minor_linker_version ← readU8
  let size_of_code ← readU32
  let size_of_initialized_data ← readU32
  let size_of_uninitialized_data ← readU32
  let address_of_entry_point ← readU32
  let base_of_code ← readU32
  let base_of_data ← readU32
  let image_base ← readU32
  let section_alignment ← readU32
  let file_alignment ← readU32
  let major_operating_system_version ← readU16
  let minor_operating_system_version ← readU16
  let major_image_version ← readU16
  let minor_image_version ← readU16
  let major_subsystem_version ← readU16
  let minor_subsystem_version ← readU16
  let win32_version_value ← readU32
  let size_of_image ← readU32
  let size_of_headers ← readU32
  let checksum ← readU32
  let subsystem ← readU16
  let dll_characteristics ← readU16
  let size_of_stack_reserve ← readU32
  let size_of_stack_commit ← readU32
  let size_of_heap_reserve ← readU32
  let size_of_heap_commit ← readU32
  let loader_flags ← readU32
  let number_of_rva_and_sizes ← readU32
  pure { magic, major_linker_version, minor_linker_version, size_of_code,
         size_of_initialized_data, size_of_uninitialized_data,
         address_of_entry_point, base_of_code, base_of_data, image_base,
         section_alignment, file_alignment, major_operating_system_version,
         minor_operating_system_version, major_image_version,
         minor_image_version, major_subsystem_version,
         minor_subsystem_version, win32_version_value, size_of_image,
         size_of_headers, checksum, subsystem, dll_characteristics,
         size_of_stack_reserve, size_of_stack_commit, size_of_heap_reserve,
         size_of_heap_commit, loader_flags, number_of_rva_and_sizes }

/-- A decoder whose only failure mode is end-of-stream. -/
def EofOnly {α : Type} (m : Dec α) : Prop :=
  ∀ s e, m s = .error e → e = .eof

/-- A decoder that consumes exactly k bytes forward: it succeeds
whenever k bytes remain and fails with eof otherwise. -/
def TotalRead {α : Type} (m : Dec α) (k : Nat) : Prop :=
  ∀ s : Strm, s.pos ≤ s.data.length →
    (s.pos + k ≤ s.data.length →
      ∃ a, m s = .ok (a, ⟨s.data, s.pos + k⟩)) ∧
    (s.data.length < s.pos + k → m s = .error .eof)

/-- The DOS header peNoDirsFile decodes to. -/
def dosNoDirsHeader : DosHeader :=
  { magic := [77, 90], e_cblp := 0, e_cp := 0, e_crlc := 0, e_cparhdr := 0,
    e_minalloc := 0, e_maxalloc := 0, e_ss := 0, e_sp := 0, e_csum := 0,
    e_ip := 0, e_cs := 0, e_lfarlc := 0, e_ovno := 0, e_oemid := 0,
    e_oeminfo := 0, e_lfanew := 64 }

/-! ## Theorems -/

/-- Unfolding lemma: the bind of the decoder monad is decBind. -/
theorem dec_bind_def {α β : Type} :
    (Bind.bind : Dec α → (α → Dec β) → Dec β) = decBind := rfl

/-- Unfolding lemma: the pure of the decoder monad is decPure. -/
theorem dec_pure_def {α : Type} : (Pure.pure : α → Dec α) = decPure := rfl

/-- The section-lookup loop returns the first section containing the rva,
in List.find? form. -/
theorem sectionSearch_eq_find (rva : Nat) (l : List ImageSectionHeader) :
    sectionSearch rva l = l.find? (fun sec =>
      decide (sec.virtual_address ≤ rva ∧
        rva < (sec.virtual_address + sec.virtual_size) % 2 ^ 32)) := by
  induction l with
  | nil => rfl
  | cons sec rest ih =>
    by_cases h1 : sec.virtual_address ≤ rva
    · by_cases h2 : rva < (sec.virtual_address + sec.virtual_size) % 4294967296
      · simp [sectionSearch, List.find?_cons, h1, h2]
      · simp [sectionSearch, List.find?_cons, h1, h2, ih]
    · simp [sectionSearch, List.find?_cons, h1, ih]

/-- Claim C1, counterexample: with declared file_alignment 0x100 (below
512) the code leaves pointer_to_raw_data 0x201 unchanged instead of
rounding it to 0x200, and with file_alignment 0x200 it rounds 0x201 down
instead of leaving it unchanged — the opposite of the claimed branches. -/
theorem c1_adjust_file_cex :
    RvaHelper.adjust_file_alignment ⟨0x100, 0, []⟩ 0x201 ≠ 0x200 ∧
    RvaHelper.adjust_file_alignment ⟨0x200, 0, []⟩ 0x201 ≠ 0x201 := by decide

/-- Claim C1 (amended): adjust_file_alignment leaves pointer_to_raw_data
unchanged when the declared file_alignment is below 512, and rounds it
down to a 512-byte boundary (the greatest multiple of 512 not above it)
when the declared file_alignment is 512 or more. -/
theorem c1_adjust_file_amended (h : RvaHelper) (offset : Nat) :
    (h.file_alignment < 0x200 → h.adjust_file_alignment offset = offset) ∧
    (0x200 ≤ h.file_alignment →
      h.adjust_file_alignment offset % 0x200 = 0 ∧
      h.adjust_file_alignment offset ≤ offset ∧
      offset < h.adjust_file_alignment offset + 0x200) := by
  unfold RvaHelper.adjust_file_alignment
  constructor
  · intro hlt
    rw [if_pos hlt]
  · intro hge
    rw [if_neg (by omega)]
    have h1 := Nat.div_add_mod offset 0x200
    have h2 : offset % 0x200 < 0x200 := Nat.mod_lt _ (by norm_num)
    exact ⟨Nat.mul_mod_left _ _, by omega, by omega⟩

/-- Witness for c1_adjust_file_amended at concrete alignments. -/
theorem c1_adjust_file_witness :
    RvaHelper.adjust_file_alignment ⟨0x100, 0, []⟩ 0x201 = 0x201 ∧
    RvaHelper.adjust_file_alignment ⟨0x400, 0, []⟩ 0x201 % 0x200 = 0 :=
  ⟨(c1_adjust_file_amended ⟨0x100, 0, []⟩ 0x201).1 (by decide),
   ((c1_adjust_file_amended ⟨0x400, 0, []⟩ 0x201).2 (by decide)).1⟩

/-- Claim C6: adjust_section_alignment leaves virtual_address unchanged
when the effective alignment (file_alignment if the declared
section_alignment is below 4096, else the declared section_alignment) is
zero or already divides it, and otherwise rounds it down to the greatest
multiple of the effective alignment not above it. -/
theorem c6_adjust_section_spec (h : RvaHelper) (offset : Nat) :
    ((if h.section_alignment < 0x1000 then h.file_alignment
        else h.section_alignment) = 0 →
      h.adjust_section_alignment offset = offset) ∧
    (offset % (if h.section_alignment < 0x1000 then h.file_alignment
        else h.section_alignment) = 0 →
      h.adjust_section_alignment offset = offset) ∧
    ((if h.section_alignment < 0x1000 then h.file_alignment
        else h.section_alignment) ≠ 0 →
      h.adjust_section_alignment offset
          % (if h.section_alignment < 0x1000 then h.file_alignment
              else h.section_alignment) = 0 ∧
      h.adjust_section_alignment offset ≤ offset ∧
      offset < h.adjust_section_alignment offset
          + (if h.section_alignment < 0x1000 then h.file_alignment
              else h.section_alignment)) := by
  unfold RvaHelper.adjust_section_alignment
  set eff := if h.section_alignment < 0x1000 then h.file_alignment
    else h.section_alignment with heff
  by_cases h1 : eff = 0
  · rw [if_neg (by tauto)]
    exact ⟨fun _ => rfl, fun _ => rfl, fun hc => absurd h1 hc⟩
  · by_cases h2 : offset % eff = 0
    · rw [if_neg (by tauto)]
      have h4 : 0 < eff := Nat.pos_of_ne_zero h1
      exact ⟨fun _ => rfl, fun _ => rfl, fun _ => ⟨h2, le_refl _, by omega⟩⟩
    · rw [if_pos ⟨h1, h2⟩]
      have h3 := Nat.div_add_mod offset eff
      have h4 : offset % eff < eff := Nat.mod_lt _ (Nat.pos_of_ne_zero h1)
      exact ⟨fun hc => absurd hc h1, fun hc => absurd hc h2,
        fun _ => ⟨Nat.mul_mod_right _ _, by omega, by omega⟩⟩

/-- Witness for c6_adjust_section_spec at concrete alignments. -/
theorem c6_adjust_section_witness :
    RvaHelper.adjust_section_alignment ⟨0x200, 0x2000, []⟩ 0x2100 % 0x2000 = 0 :=
  (((c6_adjust_section_spec ⟨0x200, 0x2000, []⟩ 0x2100).2.2) (by decide)).1

/-- Claim C5: rva_to_offset searches the section table for the first
section whose half-open interval contains the rva (the upper bound
computed in wrapping u32 arithmetic, as the source does); on a hit it
returns rva + adjust_file_alignment(pointer_to_raw_data)
- adjust_section_alignment(virtual_address) in u32 arithmetic, and with
no containing section it fails with the corrupt-data error. -/
theorem c5_rva_to_offset_spec (h : RvaHelper) (rva : Nat) :
    h.rva_to_offset rva =
      match h.sections.find? (fun sec =>
          decide (sec.virtual_address ≤ rva ∧
            rva < (sec.virtual_address + sec.virtual_size) % 2 ^ 32)) with
      | some sec =>
          .ok ((rva + h.adjust_file_alignment sec.pointer_to_raw_data
                + (2 ^ 32 - h.adjust_section_alignment sec.virtual_address)) % 2 ^ 32)
      | none => .error (.corrupt "Section not found") := by
  unfold RvaHelper.rva_to_offset RvaHelper.section_for_rva
  rw [← sectionSearch_eq_find]
  cases sectionSearch rva h.sections <;> rfl

/-- Claim C7: on the synthetic tree with named directory A, numeric
subdirectory id 3 and named leaf X, the crawl produces exactly one entry
whose path is the three resolved names joined top-down by the separator,
with no separator before the first segment. -/
theorem c7_path_construction :
    crawl resTreeArgs 10 ⟨0, [], []⟩ =
      .ok () ⟨24, [⟨"A" ++ path_sep ++ "ICON" ++ path_sep ++ "X", 0x400, 5⟩], []⟩ := by
  decide

/-- Claim C8: the guarded entry step restores the stream cursor used for
the next sibling record: whatever the peeked body did, and whether it
returned or threw, the resulting position equals the position at entry. -/
theorem c8_peek_restores (inner : CState → COut Unit) (logAddr : Nat)
    (s : CState) :
    match entryStep inner logAddr s with
    | .ok _ s1 => s1.pos = s.pos
    | .err _ s1 => s1.pos = s.pos
    | .diverge => True := by
  unfold entryStep
  cases inner s <;> simp

/-- Unfolding step: a successful directory-header decode turns one
process_dir level into its entry loop. -/
theorem processDir_step (a : CrawlArgs) (fuel off : Nat) (path : String)
    (s s1 : CState) (dir : ImageResourceDir)
    (h : liftDec (do
        seekD (a.base_offset + off)
        ImageResourceDir.decode) a s = .ok dir s1) :
    processDir a (fuel + 1) off path s =
      processEntries (processDir a fuel) a
        (dir.number_of_named_entries + dir.number_of_id_entries) path s1 := by
  simp only [processDir, h]

/-- Divergence of the peeked body passes through the guard: a C++ stack
overflow is not an exception the catch block could stop. -/
theorem entryStep_diverge (inner : CState → COut Unit) (logAddr : Nat)
    (s : CState) (h : inner s = .diverge) :
    entryStep inner logAddr s = .diverge := by
  simp only [entryStep, h]

/-- Divergence inside one entry aborts the entry loop. -/
theorem processEntries_step_diverge (child : Nat → String → CState → COut Unit)
    (a : CrawlArgs) (n : Nat) (path : String) (s s1 : CState)
    (entry : ImageResourceDirEntry)
    (hrec : liftDec ImageResourceDirEntry.decode a s = .ok entry s1)
    (hstep : entryStep (innerStep child a entry path)
        (a.base_offset + entry.offset_to_data) s1 = .diverge) :
    processEntries child a (n + 1) path s = .diverge := by
  simp only [processEntries, hrec, hstep]

/-- The single entry of the cyclic tree resolves to ICON and descends
into the subdirectory at offset 0. -/
theorem innerStep_cyc (child : Nat → String → CState → COut Unit)
    (path : String) (s : CState) :
    innerStep child cycTreeArgs ⟨0, false, 3, 3, 3, 1⟩ path s =
      child 0 (if path ≠ "" then path ++ path_sep ++ "ICON" else "ICON") s := rfl

/-- On the cyclic resource tree, no recursion depth suffices: every fuel
value is exhausted. -/
theorem cyc_dir_diverges (fuel : Nat) :
    ∀ (path : String) (s : CState),
      processDir cycTreeArgs fuel 0 path s = .diverge := by
  induction fuel with
  | zero => intro path s; rfl
  | succ f ih =>
    intro path s
    obtain ⟨p, es, lg⟩ := s
    have h1 : liftDec (do
        seekD (cycTreeArgs.base_offset + 0)
        ImageResourceDir.decode) cycTreeArgs ⟨p, es, lg⟩ =
        .ok ⟨0, 0, 0, 0, 0, 1⟩ ⟨16, es, lg⟩ := rfl
    have hdec : ImageResourceDirEntry.decode ⟨cycTreeArgs.data, 16⟩ =
        .ok (⟨0, false, 3, 3, 3, 1⟩, ⟨cycTreeArgs.data, 24⟩) := by decide
    have h2 : liftDec ImageResourceDirEntry.decode cycTreeArgs ⟨16, es, lg⟩ =
        .ok ⟨0, false, 3, 3, 3, 1⟩ ⟨24, es, lg⟩ := by
      simp only [liftDec, hdec]
    rw [processDir_step cycTreeArgs f 0 path ⟨p, es, lg⟩ ⟨16, es, lg⟩
      ⟨0, 0, 0, 0, 0, 1⟩ h1]
    exact processEntries_step_diverge (processDir cycTreeArgs f) cycTreeArgs 0 path
      ⟨16, es, lg⟩ ⟨24, es, lg⟩ ⟨0, false, 3, 3, 3, 1⟩ h2
      (entryStep_diverge _ _ _
        ((innerStep_cyc (processDir cycTreeArgs f) path ⟨24, es, lg⟩).trans (ih _ _)))

/-- Claim C4, counterexample: in truncTreeFile the top directory declares
two entries; the first is processed (one entry produced), but decoding
the second 8-byte entry record fails and that failure is not caught: the
whole crawl aborts with the exception instead of yielding a partial
entry set, so an entry-processing decode failure does abort the overall
enumeration. -/
theorem c4_isolation_cex :
    crawl truncTreeArgs 10 ⟨0, [], []⟩ =
      .err .eof ⟨24, [⟨"FONT_DIRECTORY", 0x400, 5⟩], []⟩ := by decide

/-- Claim C4 (amended): a failure inside the guarded part of one entry
step — name resolution, descent into a subdirectory, or leaf data
decoding and address translation, all of which run after the 8-byte
entry record has been read — is caught in that entry's scope, logged
with the attempted absolute offset and the cause, and the loop continues
with the remaining sibling entries; only a failure decoding the entry
record itself (which is read outside the guard) propagates. -/
theorem c4_isolation_amended (child : Nat → String → CState → COut Unit)
    (a : CrawlArgs) (n : Nat) (path : String) (s s1 s2 : CState)
    (entry : ImageResourceDirEntry) (e : Err)
    (hrec : liftDec ImageResourceDirEntry.decode a s = .ok entry s1)
    (hfail : innerStep child a entry path s1 = .err e s2) :
    processEntries child a (n + 1) path s =
      processEntries child a n path
        { s2 with pos := s1.pos,
                  log := s2.log ++ [(a.base_offset + entry.offset_to_data, e)] } := by
  simp only [processEntries, hrec, entryStep, hfail]

/-- Witness for c4_isolation_amended on badNameFile, whose first entry
has a name offset past end-of-file. -/
theorem c4_isolation_witness :
    processEntries (processDir badNameArgs 5) badNameArgs 2 "" ⟨16, [], []⟩ =
      processEntries (processDir badNameArgs 5) badNameArgs 1 ""
        ⟨24, [], [(40, .eof)]⟩ :=
  c4_isolation_amended (processDir badNameArgs 5) badNameArgs 1 "" ⟨16, [], []⟩
    ⟨24, [], []⟩ ⟨24, [], []⟩ ⟨40, true, 1000, 2 ^ 31 + 1000, 2 ^ 31 + 1000, 0⟩
    .eof (by decide) (by decide)

/-- Claim C9 (amended): the crawl recursion carries no depth or node
bound of its own; on the cyclic resource tree cycTreeFile every fuel
budget is exhausted, i.e. the source recursion never bottoms out. -/
theorem c9_unbounded_recursion (fuel : Nat) :
    crawl cycTreeArgs fuel ⟨0, [], []⟩ = .diverge :=
  cyc_dir_diverges fuel "" ⟨0, [], []⟩

/-- Claim C9, counterexample: the crawl does not terminate on the cyclic
resource tree — no recursion bound makes it finish, refuting that the
traversal bounds its recursion depth and visited nodes on adversarial
cyclic inputs. -/
theorem c9_termination_cex : ¬ crawlTerminates cycTreeArgs ⟨0, [], []⟩ := by
  rintro ⟨fuel, hf⟩
  exact hf (cyc_dir_diverges fuel "" ⟨0, [], []⟩)

/-- Unfolding step for a successful sub-decode inside a bind. -/
theorem decBind_ok {α β : Type} (m : Dec α) (f : α → Dec β) (s : Strm)
    (a : α) (s1 : Strm) (h : m s = .ok (a, s1)) :
    decBind m f s = f a s1 := by
  unfold decBind
  rw [h]

/-- Reads fail only with eof. -/
theorem eofOnly_readBytes (n : Nat) : EofOnly (readBytes n) := by
  intro s e h
  unfold readBytes at h
  split_ifs at h
  injection h with h1
  exact h1.symm

/-- Pure never fails. -/
theorem eofOnly_decPure {α : Type} (a : α) : EofOnly (decPure a) := by
  intro s e h
  exact Except.noConfusion h

/-- Sequencing preserves failing only with eof. -/
theorem eofOnly_bind {α β : Type} {m : Dec α} {f : α → Dec β}
    (hm : EofOnly m) (hf : ∀ a, EofOnly (f a)) : EofOnly (decBind m f) := by
  intro s e h
  unfold decBind at h
  cases hq : m s with
  | ok pr =>
    obtain ⟨a, s1⟩ := pr
    rw [hq] at h
    exact hf a s1 e h
  | error e2 =>
    rw [hq] at h
    have h2 : (Except.error e2 : Except Err (β × Strm)) = .error e := h
    injection h2 with h1
    exact h1 ▸ hm s e2 hq

/-- readU8 fails only with eof. -/
theorem eofOnly_readU8 : EofOnly readU8 :=
  eofOnly_bind (eofOnly_readBytes 1) fun bs => eofOnly_decPure (leVal bs)

/-- readU16 fails only with eof. -/
theorem eofOnly_readU16 : EofOnly readU16 :=
  eofOnly_bind (eofOnly_readBytes 2) fun bs => eofOnly_decPure (leVal bs)

/-- readU32 fails only with eof. -/
theorem eofOnly_readU32 : EofOnly readU32 :=
  eofOnly_bind (eofOnly_readBytes 4) fun bs => eofOnly_decPure (leVal bs)

/-- readU64 fails only with eof. -/
theorem eofOnly_readU64 : EofOnly readU64 :=
  eofOnly_bind (eofOnly_readBytes 8) fun bs => eofOnly_decPure (leVal bs)

/-- Claim C2, counterexample: the 96-byte header optBadMagicFile carries
magic 0 (neither 0x10B nor 0x20B) yet decodes successfully using the
32-bit field layout — 96 bytes consumed and the six trailing u32 values
landing in the 4-byte-wide fields — instead of failing with a structural
error. -/
theorem c2_magic_cex :
    ImageOptionalHeader.decode ⟨optBadMagicFile, 0⟩ =
      .ok (optBadMagicHeader, ⟨optBadMagicFile, 96⟩) := by decide

/-- Claim C2 (amended): decoding the optional header never raises a
structural error — its only failure mode is stream exhaustion — and for
every input whose magic word is not 0x20B (malformed values included)
the decode proceeds exactly as the spec's 32-bit field layout, i.e. the
magic is silently treated as 32-bit rather than rejected. -/
theorem c2_magic_amended :
    (∀ s e, ImageOptionalHeader.decode s = .error e → e = .eof) ∧
    (∀ s m sm, readU16 s = .ok (m, sm) → m ≠ 0x20B →
      ImageOptionalHeader.decode s = ImageOptionalHeader.decode32Spec s) := by
  constructor
  · show EofOnly ImageOptionalHeader.decode
    unfold ImageOptionalHeader.decode
    simp only [dec_bind_def, dec_pure_def]
    repeat'
      first
      | exact eofOnly_readU8
      | exact eofOnly_readU16
      | exact eofOnly_readU32
      | exact eofOnly_readU64
      | exact eofOnly_decPure _
      | refine eofOnly_bind ?_ fun a => ?_
      | split
  · intro s m sm hm hne
    have hb : (m == 0x20B) = false := by
      simp [hne]
    unfold ImageOptionalHeader.decode ImageOptionalHeader.decode32Spec
    simp only [dec_bind_def, dec_pure_def]
    rw [decBind_ok _ _ _ _ _ hm, decBind_ok _ _ _ _ _ hm]
    simp only [hb, Bool.false_eq_true, if_false]

/-- Witness for c2_magic_amended at the magic-0 header. -/
theorem c2_magic_witness :
    ImageOptionalHeader.decode ⟨optBadMagicFile, 0⟩ =
      ImageOptionalHeader.decode32Spec ⟨optBadMagicFile, 0⟩ :=
  c2_magic_amended.2 ⟨optBadMagicFile, 0⟩ 0 ⟨optBadMagicFile, 2⟩
    (by decide) (by decide)

/-- readBytes consumes exactly its byte count. -/
theorem totalRead_readBytes (n : Nat) : TotalRead (readBytes n) n := by
  intro s hps
  constructor
  · intro h
    exact ⟨_, by unfold readBytes; rw [if_pos h]⟩
  · intro h
    unfold readBytes
    rw [if_neg (by omega)]

/-- skip consumes exactly its byte count. -/
theorem totalRead_skipD (n : Nat) : TotalRead (skipD n) n := by
  intro s hps
  constructor
  · intro h
    exact ⟨(), by unfold skipD; rw [if_pos h]⟩
  · intro h
    unfold skipD
    rw [if_neg (by omega)]

/-- Pure consumes nothing. -/
theorem totalRead_decPure {α : Type} (a : α) : TotalRead (decPure a) 0 := by
  intro s hps
  constructor
  · intro h
    exact ⟨a, by simp [decPure]⟩
  · intro h
    omega

/-- Byte counts of sequential decodes add up. -/
theorem totalRead_bind {α β : Type} {m : Dec α} {f : α → Dec β} {k1 k2 : Nat}
    (hm : TotalRead m k1) (hf : ∀ a, TotalRead (f a) k2) :
    TotalRead (decBind m f) (k1 + k2) := by
  intro s hps
  constructor
  · intro hlen
    obtain ⟨a, ha⟩ := (hm s hps).1 (by omega)
    obtain ⟨b, hb⟩ := (hf a ⟨s.data, s.pos + k1⟩ (by simp; omega)).1 (by simp; omega)
    refine ⟨b, ?_⟩
    rw [decBind_ok _ _ _ _ _ ha, hb]
    simp [Nat.add_assoc]
  · intro hlen
    by_cases hc : s.pos + k1 ≤ s.data.length
    · obtain ⟨a, ha⟩ := (hm s hps).1 hc
      rw [decBind_ok _ _ _ _ _ ha]
      exact (hf a ⟨s.data, s.pos + k1⟩ (by simpa using hc)).2 (by simp; omega)
    · have ha := (hm s hps).2 (by omega)
      unfold decBind
      rw [ha]

/-- readU16 consumes 2 bytes. -/
theorem totalRead_readU16 : TotalRead readU16 2 := by
  unfold readU16
  simp only [dec_bind_def, dec_pure_def]
  exact totalRead_bind (totalRead_readBytes 2) fun bs => totalRead_decPure _

/-- readU32 consumes 4 bytes. -/
theorem totalRead_readU32 : TotalRead readU32 4 := by
  unfold readU32
  simp only [dec_bind_def, dec_pure_def]
  exact totalRead_bind (totalRead_readBytes 4) fun bs => totalRead_decPure _

/-- The DOS header decode consumes exactly 64 bytes: it succeeds iff 64
bytes remain and fails with eof otherwise. -/
theorem dosHeader_total : TotalRead DosHeader.decode 64 := by
  unfold DosHeader.decode
  simp only [dec_bind_def, dec_pure_def]
  exact totalRead_bind (totalRead_readBytes 2) fun _ =>
    totalRead_bind totalRead_readU16 fun _ =>
    totalRead_bind totalRead_readU16 fun _ =>
    totalRead_bind totalRead_readU16 fun _ =>
    totalRead_bind totalRead_readU16 fun _ =>
    totalRead_bind totalRead_readU16 fun _ =>
    totalRead_bind totalRead_readU16 fun _ =>
    totalRead_bind totalRead_readU16 fun _ =>
    totalRead_bind totalRead_readU16 fun _ =>
    totalRead_bind totalRead_readU16 fun _ =>
    totalRead_bind totalRead_readU16 fun _ =>
    totalRead_bind totalRead_readU16 fun _ =>
    totalRead_bind totalRead_readU16 fun _ =>
    totalRead_bind totalRead_readU16 fun _ =>
    totalRead_bind (totalRead_skipD (2 * 4)) fun _ =>
    totalRead_bind totalRead_readU16 fun _ =>
    totalRead_bind totalRead_readU16 fun _ =>
    totalRead_bind (totalRead_skipD (2 * 10)) fun _ =>
    totalRead_bind totalRead_readU32 fun _ =>
    totalRead_decPure _

/-- The magic field of a successfully decoded DOS header is the first
two bytes at the starting cursor. -/
theorem dosHeader_magic (s : Strm) (dos : DosHeader) (s1 : Strm)
    (h : DosHeader.decode s = .ok (dos, s1)) :
    dos.magic = ((s.data.drop s.pos).take 2).map (fun b => b % 256) := by
  unfold DosHeader.decode at h
  simp only [dec_bind_def, dec_pure_def] at h
  cases hq : readBytes 2 s with
  | error e =>
    unfold decBind at h
    rw [hq] at h
    exact absurd h (by simp)
  | ok pr =>
    obtain ⟨bs, st⟩ := pr
    rw [decBind_ok _ _ _ _ _ hq] at h
    simp only [decBind, decPure] at h
    repeat' split at h
    all_goals try (exfalso; exact Except.noConfusion h)
    injection h with hpair
    unfold readBytes at hq
    split_ifs at hq
    injection hq with hq1
    have hbs : bs = ((s.data.drop s.pos).take 2).map (fun b => b % 256) :=
      (congrArg Prod.fst hq1).symm
    exact ((congrArg (fun q : DosHeader × Strm => q.fst.magic) hpair).symm.trans hbs)

/-- Claim C3, counterexample: the 2-byte input consisting of exactly MZ
does not classify as recognized — the DOS header decode reads the full
64-byte header, so detection fails with an end-of-stream exception. -/
theorem c3_detect_cex : is_recognized [77, 90] = .error .eof := by decide

/-- Claim C3 (amended): detection returns true exactly when the input is
at least 64 bytes long (the full DOS header) and its first two bytes are
MZ; any shorter input makes the header decode fail with end-of-stream
instead of classifying. -/
theorem c3_detect_amended (file : List Nat) :
    (64 ≤ file.length →
      is_recognized file = .ok (((file.take 2).map (fun b => b % 256)) == [77, 90])) ∧
    (file.length < 64 → is_recognized file = .error .eof) := by
  have htot := dosHeader_total ⟨file, 0⟩ (by simp)
  constructor
  · intro hlen
    obtain ⟨dos, hdos⟩ := htot.1 (by simpa using hlen)
    have hmag := dosHeader_magic _ _ _ hdos
    unfold is_recognized
    rw [hdos]
    simp [hmag]
  · intro hlen
    have herr := htot.2 (by simpa using hlen)
    unfold is_recognized
    rw [herr]

/-- Witness for c3_detect_amended on a 64-byte MZ file and a 3-byte
file. -/
theorem c3_detect_witness :
    is_recognized mz64File =
      .ok (((mz64File.take 2).map (fun b => b % 256)) == [77, 90]) ∧
    is_recognized [77, 90, 0] = .error .eof :=
  ⟨(c3_detect_amended mz64File).1 (by decide),
   (c3_detect_amended [77, 90, 0]).2 (by decide)⟩

/-- Unfolding step for a failing sub-decode inside a bind. -/
theorem decBind_err {α β : Type} (m : Dec α) (f : α → Dec β) (s : Strm)
    (e : Err) (h : m s = .error e) : decBind m f s = .error e := by
  unfold decBind
  rw [h]

/-- A successful decodeList returns exactly as many records as
requested. -/
theorem decodeList_length {α : Type} (d : Dec α) :
    ∀ (n : Nat) (s : Strm) (xs : List α) (s1 : Strm),
      decodeList d n s = .ok (xs, s1) → xs.length = n := by
  intro n
  induction n with
  | zero =>
    intro s xs s1 h
    have h2 : (Except.ok ([], s) : Except Err (List α × Strm)) = .ok (xs, s1) := h
    injection h2 with hp
    exact (congrArg (fun q : List α × Strm => q.fst.length) hp).symm
  | succ k ih =>
    intro s xs s1 h
    unfold decodeList at h
    simp only [dec_bind_def, dec_pure_def] at h
    cases hq : d s with
    | error e =>
      rw [decBind_err _ _ _ _ hq] at h
      exact absurd h (by simp)
    | ok pr =>
      obtain ⟨x, st⟩ := pr
      rw [decBind_ok _ _ _ _ _ hq] at h
      cases hq2 : decodeList d k st with
      | error e =>
        rw [decBind_err _ _ _ _ hq2] at h
        exact absurd h (by simp)
      | ok pr2 =>
        obtain ⟨ys, st2⟩ := pr2
        rw [decBind_ok _ _ _ _ _ hq2] at h
        have h2 : (Except.ok (x :: ys, st2) : Except Err (List α × Strm)) =
            .ok (xs, s1) := h
        injection h2 with hp
        have h3 := (congrArg (fun q : List α × Strm => q.fst.length) hp).symm
        have h4 := ih st ys st2 hq2
        simpa [h4] using h3

/-- Claim C10: read_meta indexes the data-directory table at fixed
position 2 without checking its length, so whenever the headers decode
with number_of_rva_and_sizes below 3, the table access data_dirs[2] is
out of bounds — the distinguished ub outcome — and no validation or
error reporting happens first. -/
theorem c10_data_dirs_unchecked (fuel : Nat) (file : List Nat)
    (nt : ImageNtHeader) (dirs : List ImageDataDir)
    (secs : List ImageSectionHeader) (st : Strm)
    (hpre : decodePrelude file = .ok (nt, dirs, secs, st))
    (hcount : nt.optional_header.number_of_rva_and_sizes < 3) :
    read_meta fuel file = .ub := by
  have hpre0 := hpre
  unfold decodePrelude at hpre
  simp only [dec_bind_def, dec_pure_def] at hpre
  cases h1 : DosHeader.decode ⟨file, 0⟩ with
  | error e =>
    rw [decBind_err _ _ _ _ h1] at hpre
    simp at hpre
  | ok pr1 =>
    obtain ⟨dos, stA⟩ := pr1
    rw [decBind_ok _ _ _ _ _ h1] at hpre
    cases h2 : seekD dos.e_lfanew stA with
    | error e =>
      rw [decBind_err _ _ _ _ h2] at hpre
      simp at hpre
    | ok pr2 =>
      obtain ⟨u, stB⟩ := pr2
      rw [decBind_ok _ _ _ _ _ h2] at hpre
      cases h3 : ImageNtHeader.decode stB with
      | error e =>
        rw [decBind_err _ _ _ _ h3] at hpre
        simp at hpre
      | ok pr3 =>
        obtain ⟨nt0, stC⟩ := pr3
        rw [decBind_ok _ _ _ _ _ h3] at hpre
        cases h4 : decodeList ImageDataDir.decode
            nt0.optional_header.number_of_rva_and_sizes stC with
        | error e =>
          rw [decBind_err _ _ _ _ h4] at hpre
          simp at hpre
        | ok pr4 =>
          obtain ⟨dirs0, stD⟩ := pr4
          rw [decBind_ok _ _ _ _ _ h4] at hpre
          cases h5 : decodeList ImageSectionHeader.decode
              nt0.file_header.number_of_sections stD with
          | error e =>
            rw [decBind_err _ _ _ _ h5] at hpre
            simp at hpre
          | ok pr5 =>
            obtain ⟨secs0, stE⟩ := pr5
            rw [decBind_ok _ _ _ _ _ h5] at hpre
            have hpre2 : (Except.ok (nt0, dirs0, secs0, stE) :
                Except Err (ImageNtHeader × List ImageDataDir ×
                  List ImageSectionHeader × Strm)) =
                .ok (nt, dirs, secs, st) := hpre
            injection hpre2 with hp
            injection hp with hnt hp2
            injection hp2 with hdirs hp3
            injection hp3 with hsecs hst
            subst hnt
            subst hdirs
            have hlen : dirs0.length = nt0.optional_header.number_of_rva_and_sizes :=
              decodeList_length _ _ _ _ _ h4
            have hnone : dirs0[2]? = none := List.getElem?_eq_none (by omega)
            unfold read_meta
            rw [hpre0]
            simp [hnone]

set_option maxRecDepth 4000 in
/-- Header phase of the minimal zero-directory image, evaluated. -/
theorem peNoDirs_prelude :
    decodePrelude peNoDirsFile = .ok (ntNoDirsHeader, [], [], ⟨peNoDirsFile, 184⟩) := by
  have h1 : DosHeader.decode ⟨peNoDirsFile, 0⟩ =
      .ok (dosNoDirsHeader, ⟨peNoDirsFile, 64⟩) := by decide
  have h2 : seekD dosNoDirsHeader.e_lfanew ⟨peNoDirsFile, 64⟩ =
      .ok ((), ⟨peNoDirsFile, 64⟩) := by decide
  have h3 : ImageNtHeader.decode ⟨peNoDirsFile, 64⟩ =
      .ok (ntNoDirsHeader, ⟨peNoDirsFile, 184⟩) := by decide
  unfold decodePrelude
  simp only [dec_bind_def, dec_pure_def]
  rw [decBind_ok _ _ _ _ _ h1, decBind_ok _ _ _ _ _ h2, decBind_ok _ _ _ _ _ h3]
  rfl

/-- Witness for c10_data_dirs_unchecked on the zero-directory image. -/
theorem c10_oob_witness : read_meta 5 peNoDirsFile = .ub :=
  c10_data_dirs_unchecked 5 peNoDirsFile ntNoDirsHeader [] [] ⟨peNoDirsFile, 184⟩
    peNoDirs_prelude (by decide)
